import Mathlib

/-!
Verification of the query-construction, pagination, validation and
aggregation layer of the Titanic passenger REST API.

The definitions below are a shallow embedding of the Python sources:
* `src/api/routers/passengers.py` — query builders (`build_passenger_query`,
  `build_count_query`), the listing endpoint (`get_passengers`), the
  statistics endpoint (`get_passenger_statistics`) and the age-group
  endpoint (`get_age_groups`);
* `src/api/models/passenger.py` — the `PassengerFilter` pydantic model and
  its field constraints.

Python floats are modelled as rationals (`ℚ`), Python ints as `Int`,
SQL NULL as `Option`, and SQL parameter values as the inductive `Param`.
-/

namespace Titanic

/-- Value sent to the database driver as a positional query parameter
(one entry of the `params` tuple built by the query builders). -/
inductive Param where
  | int (v : Int)
  | str (s : String)
  | rat (q : ℚ)
  | bool (b : Bool)
deriving DecidableEq, Repr

/-- The `PassengerFilter` pydantic model of `src/api/models/passenger.py`
(lines 84-101): eight optional fields, each either absent (`none`) or
present with a value.  Range checks are performed at construction time by
`PassengerFilter.construct` below, mirroring the pydantic `Field`
constraints. -/
structure PassengerFilter where
  survived : Option Int
  pclass : Option Int
  sex : Option String
  min_age : Option ℚ
  max_age : Option ℚ
  embarked : Option String
  adult_male : Option Bool
  alone : Option Bool
deriving DecidableEq, Repr

/-- The `base_query` string of `build_passenger_query`
(`src/api/routers/passengers.py` lines 39-64). -/
def listBaseQuery : String :=
  "\n    SELECT \n        o.survived,\n        o.pclass,\n        s.sex,\n        o.age,\n        o.sibsp,\n        o.parch,\n        o.fare,\n        o.adult_male,\n        o.alone,\n        e.embarked,\n        c.class as class_name,\n        w.who,\n        d.deck,\n        et.embark_town,\n        a.alive\n    FROM Observation o\n    LEFT JOIN Sex s ON o.sex_id = s.sex_id\n    LEFT JOIN Embarked e ON o.embarked_id = e.embarked_id\n    LEFT JOIN Class c ON o.class_id = c.class_id\n    LEFT JOIN Who w ON o.who_id = w.who_id\n    LEFT JOIN Deck d ON o.deck_id = d.deck_id\n    LEFT JOIN EmbarkTown et ON o.embark_town_id = et.embark_town_id\n    LEFT JOIN Alive a ON o.alive_id = a.alive_id\n    "

/-- The `base_query` string of `build_count_query`
(`src/api/routers/passengers.py` lines 126-136). -/
def countBaseQuery : String :=
  "\n    SELECT COUNT(*) as total\n    FROM Observation o\n    LEFT JOIN Sex s ON o.sex_id = s.sex_id\n    LEFT JOIN Embarked e ON o.embarked_id = e.embarked_id\n    LEFT JOIN Class c ON o.class_id = c.class_id\n    LEFT JOIN Who w ON o.who_id = w.who_id\n    LEFT JOIN Deck d ON o.deck_id = d.deck_id\n    LEFT JOIN EmbarkTown et ON o.embark_town_id = et.embark_town_id\n    LEFT JOIN Alive a ON o.alive_id = a.alive_id\n    "

/-- Python's `" AND ".join(where_conditions)`. -/
def joinAnd : List String → String
  | [] => ""
  | [c] => c
  | c :: d :: ds => c ++ " AND " ++ joinAnd (d :: ds)

/-- The eight sequential `if filters.<field> is not None` blocks of
`build_passenger_query` (`src/api/routers/passengers.py` lines 70-101),
accumulating `where_conditions` and `params` in source order. -/
def passengerWhereBlocks : Option PassengerFilter → List String × List Param
  | none => ([], [])
  | some f =>
    let acc : List String × List Param := ([], [])
    let acc := match f.survived with
      | some v => (acc.1 ++ ["o.survived = %s"], acc.2 ++ [Param.int v])
      | none => acc
    let acc := match f.pclass with
      | some v => (acc.1 ++ ["o.pclass = %s"], acc.2 ++ [Param.int v])
      | none => acc
    let acc := match f.sex with
      | some v => (acc.1 ++ ["s.sex = %s"], acc.2 ++ [Param.str v])
      | none => acc
    let acc := match f.min_age with
      | some v => (acc.1 ++ ["o.age >= %s"], acc.2 ++ [Param.rat v])
      | none => acc
    let acc := match f.max_age with
      | some v => (acc.1 ++ ["o.age <= %s"], acc.2 ++ [Param.rat v])
      | none => acc
    let acc := match f.embarked with
      | some v => (acc.1 ++ ["e.embarked = %s"], acc.2 ++ [Param.str v])
      | none => acc
    let acc := match f.adult_male with
      | some v => (acc.1 ++ ["o.adult_male = %s"], acc.2 ++ [Param.bool v])
      | none => acc
    let acc := match f.alone with
      | some v => (acc.1 ++ ["o.alone = %s"], acc.2 ++ [Param.bool v])
      | none => acc
    acc

/-- The duplicated filter blocks of `build_count_query`
(`src/api/routers/passengers.py` lines 141-172); the source repeats the
code of lines 70-101 verbatim, and so does this definition. -/
def countWhereBlocks : Option PassengerFilter → List String × List Param
  | none => ([], [])
  | some f =>
    let acc : List String × List Param := ([], [])
    let acc := match f.survived with
      | some v => (acc.1 ++ ["o.survived = %s"], acc.2 ++ [Param.int v])
      | none => acc
    let acc := match f.pclass with
      | some v => (acc.1 ++ ["o.pclass = %s"], acc.2 ++ [Param.int v])
      | none => acc
    let acc := match f.sex with
      | some v => (acc.1 ++ ["s.sex = %s"], acc.2 ++ [Param.str v])
      | none => acc
    let acc := match f.min_age with
      | some v => (acc.1 ++ ["o.age >= %s"], acc.2 ++ [Param.rat v])
      | none => acc
    let acc := match f.max_age with
      | some v => (acc.1 ++ ["o.age <= %s"], acc.2 ++ [Param.rat v])
      | none => acc
    let acc := match f.embarked with
      | some v => (acc.1 ++ ["e.embarked = %s"], acc.2 ++ [Param.str v])
      | none => acc
    let acc := match f.adult_male with
      | some v => (acc.1 ++ ["o.adult_male = %s"], acc.2 ++ [Param.bool v])
      | none => acc
    let acc := match f.alone with
      | some v => (acc.1 ++ ["o.alone = %s"], acc.2 ++ [Param.bool v])
      | none => acc
    acc

/-- Embedding of `build_passenger_query` (`src/api/routers/passengers.py`
lines 24-119): filter conditions, `WHERE` clause, fixed
`ORDER BY o.pclass, s.sex, o.age`, then `LIMIT` only when `limit` is
provided, and `OFFSET` only inside the `limit` branch. -/
def build_passenger_query (filters : Option PassengerFilter)
    (limit : Option Int) (offset : Option Int) : String × List Param :=
  let wp := passengerWhereBlocks filters
  let where_conditions := wp.1
  let params := wp.2
  let base_query :=
    if where_conditions.isEmpty then listBaseQuery
    else listBaseQuery ++ " WHERE " ++ joinAnd where_conditions
  let base_query := base_query ++ " ORDER BY o.pclass, s.sex, o.age"
  match limit with
  | none => (base_query, params)
  | some l =>
    let base_query := base_query ++ " LIMIT %s"
    let params := params ++ [Param.int l]
    match offset with
    | none => (base_query, params)
    | some o => (base_query ++ " OFFSET %s", params ++ [Param.int o])

/-- Embedding of `build_count_query` (`src/api/routers/passengers.py`
lines 122-177): identical filter conditions over the count base query,
with no ordering or pagination clause. -/
def build_count_query (filters : Option PassengerFilter) : String × List Param :=
  let wp := countWhereBlocks filters
  let where_conditions := wp.1
  let params := wp.2
  let base_query :=
    if where_conditions.isEmpty then countBaseQuery
    else countBaseQuery ++ " WHERE " ++ joinAnd where_conditions
  (base_query, params)

/-- Contribution of one optional filter field: a single condition-parameter
pair when the field is present, nothing when it is absent. -/
def optPair {α : Type} (x : Option α) (c : String) (p : α → Param) : List (String × Param) :=
  match x with
  | some v => [(c, p v)]
  | none => []

/-- Specification-side pairing of each present filter field with its
predicate text and parameter, in the fixed field order stated by the spec
(survived, class, sex, min_age, max_age, embarked, adult_male, alone). -/
def specPairs (filters : Option PassengerFilter) : List (String × Param) :=
  match filters with
  | none => []
  | some f =>
    optPair f.survived "o.survived = %s" Param.int ++
    optPair f.pclass "o.pclass = %s" Param.int ++
    optPair f.sex "s.sex = %s" Param.str ++
    optPair f.min_age "o.age >= %s" Param.rat ++
    optPair f.max_age "o.age <= %s" Param.rat ++
    optPair f.embarked "e.embarked = %s" Param.str ++
    optPair f.adult_male "o.adult_male = %s" Param.bool ++
    optPair f.alone "o.alone = %s" Param.bool

/-- Predicate texts of the present filter fields, in the fixed field order. -/
def specWhereConds (filters : Option PassengerFilter) : List String :=
  (specPairs filters).map Prod.fst

/-- Parameters of the present filter fields, in the fixed field order. -/
def specFilterParams (filters : Option PassengerFilter) : List Param :=
  (specPairs filters).map Prod.snd

/-- WHERE clause text produced for a filter: empty for an empty condition
list, otherwise the `" WHERE "`-prefixed `" AND "`-join of the predicates. -/
def whereClause (filters : Option PassengerFilter) : String :=
  if (specWhereConds filters).isEmpty then ""
  else " WHERE " ++ joinAnd (specWhereConds filters)

/-- Text appended for the pagination window: `LIMIT` when a limit is given,
`OFFSET` only when a limit and an offset are both given. -/
def limitOffsetText (limit offset : Option Int) : String :=
  match limit with
  | none => ""
  | some _ =>
    match offset with
    | none => " LIMIT %s"
    | some _ => " LIMIT %s" ++ " OFFSET %s"

/-- Parameters appended for the pagination window. -/
def limitOffsetParams (limit offset : Option Int) : List Param :=
  match limit with
  | none => []
  | some l =>
    match offset with
    | none => [Param.int l]
    | some o => [Param.int l, Param.int o]

lemma append_empty_str (s : String) : s ++ "" = s := by
  cases s with
  | mk data => show String.mk (data ++ []) = String.mk data
               rw [List.append_nil]

set_option maxHeartbeats 1600000 in
lemma passengerWhereBlocks_eq (f : Option PassengerFilter) :
    passengerWhereBlocks f = (specWhereConds f, specFilterParams f) := by
  cases f with
  | none => rfl
  | some f =>
    obtain ⟨s, p, sx, mn, mx, em, am, al⟩ := f
    cases s <;> cases p <;> cases sx <;> cases mn <;> cases mx <;>
      cases em <;> cases am <;> cases al <;> rfl

set_option maxHeartbeats 1600000 in
lemma countWhereBlocks_eq (f : Option PassengerFilter) :
    countWhereBlocks f = (specWhereConds f, specFilterParams f) := by
  cases f with
  | none => rfl
  | some f =>
    obtain ⟨s, p, sx, mn, mx, em, am, al⟩ := f
    cases s <;> cases p <;> cases sx <;> cases mn <;> cases mx <;>
      cases em <;> cases am <;> cases al <;> rfl

lemma build_count_query_eq (f : Option PassengerFilter) :
    build_count_query f = (countBaseQuery ++ whereClause f, specFilterParams f) := by
  unfold build_count_query whereClause
  rw [countWhereBlocks_eq]
  cases hb : (specWhereConds f).isEmpty <;>
    simp [hb, append_empty_str, String.append_assoc]

lemma build_passenger_query_eq (f : Option PassengerFilter) (l o : Option Int) :
    build_passenger_query f l o =
      (listBaseQuery ++ whereClause f ++ " ORDER BY o.pclass, s.sex, o.age"
          ++ limitOffsetText l o,
        specFilterParams f ++ limitOffsetParams l o) := by
  unfold build_passenger_query whereClause limitOffsetText limitOffsetParams
  rw [passengerWhereBlocks_eq]
  cases hb : (specWhereConds f).isEmpty <;> cases l <;> cases o <;>
    simp [hb, append_empty_str, String.append_assoc]

/-- Number of `%s` placeholders in a character list: counts the positions
where a `'%'` is immediately followed by an `'s'`. -/
def countPS : List Char → Nat
  | [] => 0
  | c :: rest => countPS rest + (if c = '%' ∧ rest.head? = some 's' then 1 else 0)

/-- Number of `%s` placeholders in a query string. -/
def placeholders (s : String) : Nat := countPS s.data

lemma data_append_str (s t : String) : (s ++ t).data = s.data ++ t.data := rfl

lemma countPS_cons (c : Char) (l : List Char) :
    countPS (c :: l) = countPS l + (if c = '%' ∧ l.head? = some 's' then 1 else 0) := rfl

lemma countPS_append (a b : List Char)
    (h : a.getLast? ≠ some '%' ∨ b.head? ≠ some 's') :
    countPS (a ++ b) = countPS a + countPS b := by
  induction a with
  | nil => simp [countPS]
  | cons c t ih =>
    cases t with
    | nil =>
      have hc : ¬(c = '%' ∧ b.head? = some 's') := by
        rcases h with h | h
        · intro hx; exact h (by simp [hx.1])
        · intro hx; exact h hx.2
      simp [countPS_cons, countPS, hc]
    | cons x xs =>
      have ht : (x :: xs).getLast? ≠ some '%' ∨ b.head? ≠ some 's' := by
        rcases h with h | h
        · exact Or.inl (by simpa [List.getLast?_cons_cons] using h)
        · exact Or.inr h
      have hih := ih ht
      have h1 : (c :: x :: xs) ++ b = c :: ((x :: xs) ++ b) := rfl
      have h2 : ((x :: xs) ++ b).head? = (x :: xs).head? := rfl
      rw [h1, countPS_cons, countPS_cons c (x :: xs), hih, h2]
      omega

lemma countPS_joinAnd (conds : List String)
    (h : ∀ c ∈ conds, placeholders c = 1 ∧ c.data.getLast? ≠ some '%') :
    placeholders (joinAnd conds) = conds.length := by
  induction conds with
  | nil => rfl
  | cons c rest ih =>
    cases rest with
    | nil => simpa [joinAnd] using (h c (by simp)).1
    | cons d ds =>
      have hc := h c (by simp)
      have hdata : (c ++ " AND " ++ joinAnd (d :: ds)).data
          = c.data ++ (" AND ".data ++ (joinAnd (d :: ds)).data) := by
        simp [data_append_str, List.append_assoc]
      have h1 : countPS (c.data ++ (" AND ".data ++ (joinAnd (d :: ds)).data))
          = countPS c.data + countPS (" AND ".data ++ (joinAnd (d :: ds)).data) :=
        countPS_append _ _ (Or.inl hc.2)
      have h2 : countPS (" AND ".data ++ (joinAnd (d :: ds)).data)
          = countPS " AND ".data + countPS (joinAnd (d :: ds)).data :=
        countPS_append _ _ (Or.inl (by decide))
      have h3 : countPS (joinAnd (d :: ds)).data = (d :: ds).length :=
        ih (fun x hx => h x (by simp [hx]))
      show countPS (c ++ " AND " ++ joinAnd (d :: ds)).data = _
      rw [hdata, h1, h2, h3]
      have hc1 : countPS c.data = 1 := hc.1
      have : countPS " AND ".data = 0 := by decide
      simp [hc1, this]
      omega

lemma mem_optPair {α : Type} (x : Option α) (c : String) (p : α → Param)
    (b : String × Param) (h : b ∈ optPair x c p) : b.1 = c := by
  cases x with
  | none => simp [optPair] at h
  | some v =>
    simp [optPair] at h
    simp [h]

lemma specPairs_props (f : Option PassengerFilter) :
    ∀ pr ∈ specPairs f, placeholders pr.1 = 1 ∧ pr.1.data.getLast? ≠ some '%' := by
  intro pr hpr
  cases f with
  | none => simp [specPairs] at hpr
  | some f =>
    simp only [specPairs, List.mem_append] at hpr
    rcases hpr with ((((((h | h) | h) | h) | h) | h) | h) | h <;>
      have h1 := mem_optPair _ _ _ _ h <;>
      exact ⟨by rw [h1]; decide, by rw [h1]; decide⟩

lemma specWhereConds_props (f : Option PassengerFilter) :
    ∀ c ∈ specWhereConds f, placeholders c = 1 ∧ c.data.getLast? ≠ some '%' := by
  intro c hc
  simp only [specWhereConds, List.mem_map] at hc
  obtain ⟨pr, hpr, rfl⟩ := hc
  exact specPairs_props f pr hpr

lemma placeholders_whereClause (f : Option PassengerFilter) :
    placeholders (whereClause f) = (specWhereConds f).length := by
  unfold whereClause
  cases hb : (specWhereConds f).isEmpty
  · simp only [Bool.false_eq_true, if_false]
    have hdata : (" WHERE " ++ joinAnd (specWhereConds f)).data
        = " WHERE ".data ++ (joinAnd (specWhereConds f)).data := data_append_str _ _
    show countPS _ = _
    rw [hdata, countPS_append _ _ (Or.inl (by decide))]
    have hj := countPS_joinAnd (specWhereConds f) (specWhereConds_props f)
    simp only [placeholders] at hj
    rw [hj]
    have h0 : countPS " WHERE ".data = 0 := by decide
    omega
  · rw [List.isEmpty_iff] at hb
    simp [hb, placeholders, countPS]

lemma whereClause_head (f : Option PassengerFilter) :
    (whereClause f).data.head? ≠ some 's' := by
  unfold whereClause
  cases hb : (specWhereConds f).isEmpty
  · simp only [Bool.false_eq_true, if_false]
    have : (" WHERE " ++ joinAnd (specWhereConds f)).data
        = ' ' :: ("WHERE ".data ++ (joinAnd (specWhereConds f)).data) := rfl
    rw [this]
    simp
  · simp

lemma placeholders_append_right (a b : String) (hb : b.data.head? ≠ some 's') :
    placeholders (a ++ b) = placeholders a + placeholders b := by
  unfold placeholders
  rw [data_append_str]
  exact countPS_append _ _ (Or.inr hb)

/-- C1: for every filter model, `build_count_query` and
`build_passenger_query` (the latter with its `ORDER BY` / `LIMIT` /
`OFFSET` suffix removed) produce the same WHERE clause — the predicates of
the present fields in the fixed field order survived, class, sex, min_age,
max_age, embarked, adult_male, alone, as listed by `specPairs` — and the
same filter parameters in the same order. -/
theorem count_and_list_queries_agree (f : Option PassengerFilter) (l o : Option Int) :
    (build_count_query f).1 = countBaseQuery ++ whereClause f
  ∧ (build_passenger_query f l o).1
      = listBaseQuery ++ whereClause f ++ " ORDER BY o.pclass, s.sex, o.age"
          ++ limitOffsetText l o
  ∧ (build_count_query f).2 = specFilterParams f
  ∧ (build_passenger_query f l o).2 = specFilterParams f ++ limitOffsetParams l o := by
  refine ⟨?_, ?_, ?_, ?_⟩ <;> simp [build_count_query_eq, build_passenger_query_eq]

/-- C9: a `LIMIT` clause and its argument are appended exactly when `limit`
is provided, and an `OFFSET` clause and its argument exactly when both
`limit` and `offset` are provided; a provided offset without a limit is
omitted from both the query text and the parameter list. -/
theorem limit_offset_appended_exactly_when_provided
    (f : Option PassengerFilter) (l o : Option Int) :
    (l = none →
      build_passenger_query f l o = build_passenger_query f none none)
  ∧ (∀ lv, l = some lv → o = none →
      build_passenger_query f l o
        = ((build_passenger_query f none none).1 ++ " LIMIT %s",
            (build_passenger_query f none none).2 ++ [Param.int lv]))
  ∧ (∀ lv ov, l = some lv → o = some ov →
      build_passenger_query f l o
        = ((build_passenger_query f none none).1 ++ " LIMIT %s" ++ " OFFSET %s",
            (build_passenger_query f none none).2 ++ [Param.int lv, Param.int ov])) := by
  refine ⟨?_, ?_, ?_⟩
  · rintro rfl
    cases o with
    | none => rfl
    | some ov =>
      simp [build_passenger_query_eq, limitOffsetText, limitOffsetParams]
  · rintro lv rfl rfl
    simp [build_passenger_query_eq, limitOffsetText, limitOffsetParams,
      append_empty_str, String.append_assoc]
  · rintro lv ov rfl rfl
    simp [build_passenger_query_eq, limitOffsetText, limitOffsetParams,
      append_empty_str, String.append_assoc]

/-- Witness for C9 at a concrete input: an offset provided without a limit
is a no-op. -/
theorem limit_offset_appended_witness :
    build_passenger_query none none (some 7) = build_passenger_query none none none :=
  (limit_offset_appended_exactly_when_provided none none (some 7)).1 rfl

set_option maxRecDepth 8000 in
/-- C10: for every filter, limit and offset, each builder returns a
parameter list whose length equals the number of `%s` placeholders in the
returned query text; moreover each predicate holds exactly one placeholder
(so the i-th parameter feeds the i-th placeholder, predicates and
parameters being drawn in the same order from `specPairs`). -/
theorem placeholders_match_params (f : Option PassengerFilter) (l o : Option Int) :
    placeholders (build_passenger_query f l o).1 = ((build_passenger_query f l o).2).length
  ∧ placeholders (build_count_query f).1 = ((build_count_query f).2).length
  ∧ (∀ c ∈ specWhereConds f, placeholders c = 1) := by
  refine ⟨?_, ?_, fun c hc => (specWhereConds_props f c hc).1⟩
  · rw [build_passenger_query_eq]
    have hLOT : (limitOffsetText l o).data.head? ≠ some 's' := by
      cases l with
      | none =>
        show ("" : String).data.head? ≠ some 's'
        decide
      | some lv =>
        cases o with
        | none =>
          show (" LIMIT %s" : String).data.head? ≠ some 's'
          decide
        | some ov =>
          show (" LIMIT %s" ++ " OFFSET %s" : String).data.head? ≠ some 's'
          decide
    have h1 := placeholders_append_right
      (listBaseQuery ++ whereClause f ++ " ORDER BY o.pclass, s.sex, o.age")
      (limitOffsetText l o) hLOT
    have h2 := placeholders_append_right (listBaseQuery ++ whereClause f)
      " ORDER BY o.pclass, s.sex, o.age" (by decide)
    have h3 := placeholders_append_right listBaseQuery (whereClause f) (whereClause_head f)
    have h4 : placeholders listBaseQuery = 0 := by decide
    have h5 : placeholders " ORDER BY o.pclass, s.sex, o.age" = 0 := by decide
    have h6 := placeholders_whereClause f
    have h7 : (specFilterParams f).length = (specWhereConds f).length := by
      simp [specFilterParams, specWhereConds]
    have h8 : placeholders (limitOffsetText l o) = (limitOffsetParams l o).length := by
      cases l with
      | none =>
        show placeholders "" = ([] : List Param).length
        decide
      | some lv =>
        cases o with
        | none =>
          show placeholders " LIMIT %s" = 1
          decide
        | some ov =>
          show placeholders (" LIMIT %s" ++ " OFFSET %s") = 2
          decide
    simp only [h1, h2, h3, h4, h5, h6, h8, List.length_append, h7]
    omega
  · rw [build_count_query_eq]
    have h3 := placeholders_append_right countBaseQuery (whereClause f) (whereClause_head f)
    have h4 : placeholders countBaseQuery = 0 := by decide
    have h6 := placeholders_whereClause f
    have h7 : (specFilterParams f).length = (specWhereConds f).length := by
      simp [specFilterParams, specWhereConds]
    simp only [h3, h4, h6, h7]
    omega

/-- Witness for C10 at a concrete input: the survived predicate holds
exactly one placeholder. -/
theorem placeholders_match_params_witness :
    placeholders "o.survived = %s" = 1 :=
  (placeholders_match_params
      (some ⟨some 1, none, none, none, none, none, none, none⟩) none none).2.2
    "o.survived = %s" (by decide)

/-- Pagination offset computed by the listing endpoint
(`src/api/routers/passengers.py` line 218): `offset = (page - 1) * page_size`.
Python ints are modelled as `Int`. -/
def pagination_offset (page page_size : Int) : Int := (page - 1) * page_size

/-- Total page count computed by the listing endpoint (line 219):
`total_pages = (total_count + page_size - 1) // page_size`; Python's floor
division `//` is `Int.fdiv`. -/
def pagination_total_pages (total_count page_size : Int) : Int :=
  (total_count + page_size - 1).fdiv page_size

/-- C2: for every `page ≥ 1`, `page_size ≥ 1` and `total_count ≥ 0` the
listing endpoint computes `offset = (page - 1) * page_size` and
`total_pages = ⌈total_count / page_size⌉` (implemented as
`(total_count + page_size - 1) // page_size`), and `total_pages = 0` iff
`total_count = 0`. -/
theorem pagination_formulas (page page_size total_count : Int)
    (hpage : 1 ≤ page) (hps : 1 ≤ page_size) (htc : 0 ≤ total_count) :
    pagination_offset page page_size = (page - 1) * page_size
  ∧ pagination_total_pages total_count page_size
      = ⌈(total_count : ℚ) / (page_size : ℚ)⌉
  ∧ (pagination_total_pages total_count page_size = 0 ↔ total_count = 0) := by
  have hps0 : (0 : ℤ) < page_size := by omega
  have hnum : 0 ≤ total_count + page_size - 1 := by omega
  have hfd : pagination_total_pages total_count page_size
      = (total_count + page_size - 1) / page_size := by
    unfold pagination_total_pages
    rw [Int.fdiv_eq_ediv _ (by omega)]
  set z := (total_count + page_size - 1) / page_size with hz
  have hdm := Int.ediv_add_emod (total_count + page_size - 1) page_size
  have hr0 : 0 ≤ (total_count + page_size - 1) % page_size :=
    Int.emod_nonneg _ (by omega)
  have hrlt : (total_count + page_size - 1) % page_size < page_size :=
    Int.emod_lt_of_pos _ hps0
  have hub : total_count ≤ page_size * z := by linarith
  have hlb : page_size * (z - 1) < total_count := by
    have : page_size * (z - 1) = page_size * z - page_size := by ring
    linarith
  have hceil : ⌈(total_count : ℚ) / (page_size : ℚ)⌉ = z := by
    rw [Int.ceil_eq_iff]
    have hpsq : (0 : ℚ) < (page_size : ℚ) := by exact_mod_cast hps0
    constructor
    · rw [lt_div_iff₀ hpsq]
      have : ((page_size : ℚ)) * ((z : ℚ) - 1) < (total_count : ℚ) := by
        exact_mod_cast hlb
      linarith
    · rw [div_le_iff₀ hpsq]
      have : (total_count : ℚ) ≤ (page_size : ℚ) * (z : ℚ) := by
        exact_mod_cast hub
      linarith
  refine ⟨rfl, by rw [hfd, hceil], ?_⟩
  rw [hfd]
  constructor
  · intro h0
    rw [h0, mul_zero] at hub
    omega
  · intro h0
    by_contra hzne
    rcases lt_or_gt_of_ne hzne with hneg | hpos
    · have hz1 : z ≤ -1 := by omega
      have : page_size * z ≤ page_size * (-1) :=
        mul_le_mul_of_nonneg_left hz1 (by omega)
      omega
    · have hz1 : 0 ≤ z - 1 := by omega
      have : 0 ≤ page_size * (z - 1) := mul_nonneg (by omega) hz1
      omega

/-- Witness for C2 at a concrete input: 25 rows at page size 10 give 3
pages. -/
theorem pagination_formulas_witness :
    pagination_total_pages 25 10 = ⌈(25 : ℚ) / (10 : ℚ)⌉ :=
  (pagination_formulas 3 10 25 (by norm_num) (by norm_num) (by norm_num)).2.1

/-- Checks an optional request field against a constraint, as pydantic and
FastAPI do: an absent field always passes, a present field must satisfy
the predicate. -/
def checkOpt {α : Type} (x : Option α) (p : α → Bool) : Bool :=
  match x with
  | none => true
  | some v => p v

/-- Constraints of the pydantic `PassengerFilter` model
(`src/api/models/passenger.py` lines 94-101): `survived` in 0..1, `pclass`
in 1..3, `min_age ≥ 0`, `max_age ≤ 120`.  The `sex`, `embarked`,
`adult_male` and `alone` fields carry no constraint in the source — in
particular there is no enum check on `sex` or `embarked`. -/
def filterFieldsValid (survived pclass : Option Int)
    (min_age max_age : Option ℚ) : Bool :=
  checkOpt survived (fun v => decide (0 ≤ v) && decide (v ≤ 1))
    && checkOpt pclass (fun v => decide (1 ≤ v) && decide (v ≤ 3))
    && checkOpt min_age (fun a => decide (0 ≤ a))
    && checkOpt max_age (fun a => decide (a ≤ 120))

/-- Construction of a `PassengerFilter` value: fails with a
`ValidationError` when a present field violates its pydantic constraint,
otherwise returns the filter with all fields taken verbatim. -/
def PassengerFilter.construct (survived pclass : Option Int) (sex : Option String)
    (min_age max_age : Option ℚ) (embarked : Option String)
    (adult_male alone : Option Bool) : Except String PassengerFilter :=
  if filterFieldsValid survived pclass min_age max_age then
    .ok ⟨survived, pclass, sex, min_age, max_age, embarked, adult_male, alone⟩
  else .error "ValidationError"

/-- FastAPI `Query` validation of the listing endpoint's request parameters
(`src/api/routers/passengers.py` lines 185-194): `page ≥ 1`,
`1 ≤ page_size ≤ 500`, and the same range constraints on `survived`,
`pclass`, `min_age`, `max_age` as the pydantic model; `sex`, `embarked`,
`adult_male` and `alone` are unconstrained. -/
def queryParamsValid (page page_size : Int) (survived pclass : Option Int)
    (min_age max_age : Option ℚ) : Bool :=
  decide (1 ≤ page) && (decide (1 ≤ page_size) && decide (page_size ≤ 500))
    && filterFieldsValid survived pclass min_age max_age

/-- Outcome of an HTTP endpoint call: a 422-equivalent validation failure
(raised by FastAPI before the handler body runs), a 500 error with its
client-visible detail string, or a success payload. -/
inductive EndpointResult (α : Type) where
  | validationFailure
  | serverError (detail : String)
  | ok (v : α)
deriving DecidableEq, Repr

/-- Control-flow model of the listing endpoint `get_passengers`
(`src/api/routers/passengers.py` lines 184-246).  FastAPI `Query`
validation runs first and yields the 422-equivalent `validationFailure`;
then the handler constructs the `PassengerFilter`, obtains `total_count`
from the store (abstracted by the `store` argument: the count, or the text
of the raised exception), computes the pagination window and builds the
two queries.  Any exception in the handler body is caught by the
`except Exception` block of lines 244-246, which answers a 500 whose
`detail` is the f-string `"Interner Serverfehler: "` followed by `str(e)`.
The success payload is the executed count query, the executed passenger
query, and `total_pages`. -/
def get_passengers (page page_size : Int) (survived pclass : Option Int)
    (sex : Option String) (min_age max_age : Option ℚ) (embarked : Option String)
    (adult_male alone : Option Bool) (store : Except String Int) :
    EndpointResult ((String × List Param) × (String × List Param) × Int) :=
  if queryParamsValid page page_size survived pclass min_age max_age then
    match PassengerFilter.construct survived pclass sex min_age max_age embarked
        adult_male alone with
    | .error e => .serverError ("Interner Serverfehler: " ++ e)
    | .ok filters =>
      match store with
      | .error e => .serverError ("Interner Serverfehler: " ++ e)
      | .ok total_count =>
        let offset := pagination_offset page page_size
        let total_pages := pagination_total_pages total_count page_size
        .ok (build_count_query (some filters),
             build_passenger_query (some filters) (some page_size) (some offset),
             total_pages)
  else .validationFailure

lemma checkOpt_iff {α : Type} (x : Option α) (p : α → Bool) :
    checkOpt x p = true ↔ ∀ v, x = some v → p v = true := by
  cases x <;> simp [checkOpt]

lemma filterFieldsValid_iff (survived pclass : Option Int)
    (min_age max_age : Option ℚ) :
    filterFieldsValid survived pclass min_age max_age = true ↔
      ((∀ v, survived = some v → 0 ≤ v ∧ v ≤ 1)
        ∧ (∀ v, pclass = some v → 1 ≤ v ∧ v ≤ 3)
        ∧ (∀ a, min_age = some a → 0 ≤ a)
        ∧ (∀ a, max_age = some a → a ≤ 120)) := by
  simp only [filterFieldsValid, Bool.and_eq_true, checkOpt_iff,
    Bool.and_eq_true, decide_eq_true_eq]
  tauto

lemma construct_eq_ok (survived pclass : Option Int) (sex : Option String)
    (min_age max_age : Option ℚ) (embarked : Option String)
    (adult_male alone : Option Bool)
    (h : filterFieldsValid survived pclass min_age max_age = true) :
    PassengerFilter.construct survived pclass sex min_age max_age embarked
        adult_male alone
      = .ok ⟨survived, pclass, sex, min_age, max_age, embarked, adult_male, alone⟩ := by
  unfold PassengerFilter.construct
  rw [if_pos h]

lemma get_passengers_validationFailure_iff (page page_size : Int)
    (survived pclass : Option Int) (sex : Option String)
    (min_age max_age : Option ℚ) (embarked : Option String)
    (adult_male alone : Option Bool) (store : Except String Int) :
    get_passengers page page_size survived pclass sex min_age max_age embarked
        adult_male alone store = .validationFailure
      ↔ queryParamsValid page page_size survived pclass min_age max_age = false := by
  unfold get_passengers
  cases hq : queryParamsValid page page_size survived pclass min_age max_age
  · simp
  · have hf : filterFieldsValid survived pclass min_age max_age = true := by
      have h2 := hq
      simp only [queryParamsValid, Bool.and_eq_true] at h2
      exact h2.2
    simp only [if_true]
    rw [construct_eq_ok _ _ _ _ _ _ _ _ hf]
    cases store <;> simp

/-- Counterexample to C3: the source validates no enum on `sex` (or
`embarked`); a request whose `sex` value is outside the spec's
`male`/`female` enum passes filter construction and reaches the query
stage instead of failing validation. -/
theorem sex_enum_not_validated :
    PassengerFilter.construct none none (some "notasex") none none none none none
      = .ok ⟨none, none, some "notasex", none, none, none, none, none⟩
  ∧ get_passengers 1 50 none none (some "notasex") none none none none none (.ok 0)
      ≠ .validationFailure := by
  constructor
  · rfl
  · rw [Ne, get_passengers_validationFailure_iff]
    decide

/-- C3 (amended): the 422-equivalent validation failure occurs exactly when
`page`, `page_size` or a present `survived`, `pclass`, `min_age` or
`max_age` violates its range; `sex` and `embarked` carry no enum
constraint, so filter construction succeeds for any string values of those
fields as long as the four range-checked fields are valid. -/
theorem validation_rejects_exactly_range_violations
    (page page_size : Int) (survived pclass : Option Int) (sex : Option String)
    (min_age max_age : Option ℚ) (embarked : Option String)
    (adult_male alone : Option Bool) (store : Except String Int) :
    (get_passengers page page_size survived pclass sex min_age max_age embarked
        adult_male alone store = .validationFailure
      ↔ ¬(1 ≤ page ∧ (1 ≤ page_size ∧ page_size ≤ 500)
          ∧ (∀ v, survived = some v → 0 ≤ v ∧ v ≤ 1)
          ∧ (∀ v, pclass = some v → 1 ≤ v ∧ v ≤ 3)
          ∧ (∀ a, min_age = some a → 0 ≤ a)
          ∧ (∀ a, max_age = some a → a ≤ 120)))
  ∧ ((∀ v, survived = some v → 0 ≤ v ∧ v ≤ 1) →
      (∀ v, pclass = some v → 1 ≤ v ∧ v ≤ 3) →
      (∀ a, min_age = some a → 0 ≤ a) →
      (∀ a, max_age = some a → a ≤ 120) →
      PassengerFilter.construct survived pclass sex min_age max_age embarked
          adult_male alone
        = .ok ⟨survived, pclass, sex, min_age, max_age, embarked, adult_male, alone⟩) := by
  constructor
  · rw [get_passengers_validationFailure_iff]
    simp only [queryParamsValid, filterFieldsValid, Bool.and_eq_true, checkOpt_iff,
      decide_eq_true_eq, Bool.eq_false_iff, Ne]
    tauto
  · intro h1 h2 h3 h4
    exact construct_eq_ok _ _ _ _ _ _ _ _
      ((filterFieldsValid_iff _ _ _ _).mpr ⟨h1, h2, h3, h4⟩)

/-- Witness for C3 (amended) at a concrete input: `pclass = 7` is rejected
with the 422-equivalent validation failure. -/
theorem validation_rejects_witness :
    get_passengers 1 50 none (some 7) none none none none none none (.ok 0)
      = .validationFailure :=
  (validation_rejects_exactly_range_violations 1 50 none (some 7) none none none
      none none none (.ok 0)).1.mpr
    (by rintro ⟨-, -, -, hp, -, -⟩; have := hp 7 rfl; omega)

/-- Text of a raised store exception whose leak into the 500 body the spec
forbids. -/
def leakedStoreError : String :=
  "connection failed: password authentication failed for user postgres"

/-- Counterexample to C5: a store failure is answered with a 500 whose
client-visible detail is not only the generic message — it is the generic
prefix with the raw exception text appended (line 246 of
`src/api/routers/passengers.py` formats `str(e)` into the detail). -/
theorem server_error_detail_includes_raw_error :
    get_passengers 1 50 none none none none none none none none
        (.error leakedStoreError)
      = .serverError ("Interner Serverfehler: " ++ leakedStoreError)
  ∧ "Interner Serverfehler: " ++ leakedStoreError ≠ "Interner Serverfehler: " := by
  constructor
  · rfl
  · decide

/-- C5 (amended): the client-visible body of every store failure is the
fixed generic prefix `Interner Serverfehler: ` immediately followed by the
raw underlying error text — the raw error text is included in the response
rather than suppressed. -/
theorem server_error_detail_format (page page_size : Int)
    (survived pclass : Option Int) (sex : Option String)
    (min_age max_age : Option ℚ) (embarked : Option String)
    (adult_male alone : Option Bool) (e : String)
    (hvalid : queryParamsValid page page_size survived pclass min_age max_age = true) :
    get_passengers page page_size survived pclass sex min_age max_age embarked
        adult_male alone (.error e)
      = .serverError ("Interner Serverfehler: " ++ e) := by
  unfold get_passengers
  rw [if_pos hvalid]
  have hf : filterFieldsValid survived pclass min_age max_age = true := by
    simp only [queryParamsValid, Bool.and_eq_true] at hvalid
    exact hvalid.2
  rw [construct_eq_ok _ _ _ _ _ _ _ _ hf]

/-- Witness for C5 (amended) at a concrete input. -/
theorem server_error_detail_format_witness :
    get_passengers 1 50 none none none none none none none none (.error "boom")
      = .serverError ("Interner Serverfehler: " ++ "boom") :=
  server_error_detail_format 1 50 none none none none none none none none "boom"
    (by decide)

/-- One row of the `Observation` fact table joined with its lookup tables,
as consumed by the statistics endpoints: the survived flag, the nullable
age and fare columns, and the denormalised class and sex labels. -/
structure Observation where
  survived : Int
  age : Option ℚ
  fare : Option ℚ
  classLabel : Option String
  sex : Option String
deriving DecidableEq, Repr

/-- SQL `SUM` over an integer column: `NULL` on an empty input set. -/
def sqlSumInt (l : List Int) : Option Int :=
  if l.isEmpty then none else some l.sum

/-- SQL `AVG` over a column: `NULL` on an empty input set, otherwise the
mean of the values. -/
def sqlAvg (l : List ℚ) : Option ℚ :=
  if l.isEmpty then none else some (l.sum / (l.length : ℚ))

/-- Python truthiness on a nullable int, as in `int(x) if x else 0`:
`None` and `0` are both falsy and give `0`. -/
def pyIntOrZero (x : Option Int) : Int :=
  match x with
  | none => 0
  | some v => if v = 0 then 0 else v

/-- Python truthiness on a nullable number, as in `float(x) if x else 0.0`:
`None` and `0` are both falsy and give `0`. -/
def pyRatOrZero (x : Option ℚ) : ℚ :=
  match x with
  | none => 0
  | some v => if v = 0 then 0 else v

/-- Python truthiness on a nullable number, as in `f(x) if x else None`:
`None` and `0` are falsy and give `None`, otherwise `f` is applied. -/
def pyIfTruthy (x : Option ℚ) (f : ℚ → ℚ) : Option ℚ :=
  match x with
  | none => none
  | some v => if v = 0 then none else some (f v)

attribute [local semireducible] Rat.inv Rat.mul Rat.add Rat.sub

/-- Floor of a rational, computed from its reduced fraction. -/
def ratFloor (q : ℚ) : Int := q.num.fdiv (q.den : Int)

/-- Ceiling of a rational, computed from its reduced fraction. -/
def ratCeil (q : ℚ) : Int := -((-q).num.fdiv ((-q).den : Int))

/-- Rounding half away from zero at `d` decimal digits, modelling Python's
`round` and SQL `ROUND` over exact rationals (no claim below depends on
tie-breaking behaviour or on binary floating point representation). -/
def roundTo (d : Nat) (q : ℚ) : ℚ :=
  (if 0 ≤ q.num then ((ratFloor (q * 10 ^ d + 1 / 2) : Int) : ℚ)
   else ((ratCeil (q * 10 ^ d - 1 / 2) : Int) : ℚ)) / 10 ^ d

/-- Checked division: `none` on a zero denominator, making any division by
zero observable in the embedding. -/
def pyDiv (a b : ℚ) : Option ℚ :=
  if b = 0 then none else some (a / b)

/-- Distinct values in order of first appearance; models the grouping of
SQL `GROUP BY` output rows for the distribution dictionaries. -/
def distinctInOrder (l : List String) : List String :=
  l.foldl (fun acc s => if s ∈ acc then acc else acc ++ [s]) []

/-- The `class_distribution` dictionary of the statistics endpoint
(`src/api/routers/passengers.py` lines 285-294): counts per non-null class
label, falsy (empty) labels skipped by the dict comprehension's
`if row['class']`. -/
def classDistribution (rows : List Observation) : List (String × Int) :=
  let labels := rows.filterMap (·.classLabel)
  (distinctInOrder labels).filterMap
    (fun s => if s = "" then none
      else some (s, ((labels.filter (fun x => x == s)).length : Int)))

/-- The `gender_distribution` dictionary of the statistics endpoint
(lines 297-304), built like the class distribution. -/
def genderDistribution (rows : List Observation) : List (String × Int) :=
  let labels := rows.filterMap (·.sex)
  (distinctInOrder labels).filterMap
    (fun s => if s = "" then none
      else some (s, ((labels.filter (fun x => x == s)).length : Int)))

/-- The `StatisticsResponse` model of `src/api/models/passenger.py`
(lines 104-115); the distribution dictionaries are modelled as association
lists. -/
structure StatisticsResponse where
  total_passengers : Int
  survival_rate : ℚ
  survivors : Int
  casualties : Int
  average_age : Option ℚ
  average_fare : Option ℚ
  class_distribution : List (String × Int)
  gender_distribution : List (String × Int)
deriving DecidableEq, Repr

/-- Embedding of the statistics endpoint `get_passenger_statistics`
(`src/api/routers/passengers.py` lines 253-317) over a dataset of
observation rows.  `total_count` is the count query; `survivors` is SQL
`SUM(survived)` (`NULL` on an empty table) passed through Python
truthiness `int(x) if x else 0`; `casualties = total_count - survivors`;
the survival rate divides only under the `total_count > 0` guard, through
the checked division `pyDiv` so that any division by zero would surface as
`none` (an error); the averages are SQL `AVG` over the non-null column
values passed through `float(x) if x else None` and then through
`round(x, 2) if x else None` when the response is assembled. -/
def get_passenger_statistics (rows : List Observation) : Option StatisticsResponse :=
  let total_count : Int := rows.length
  let survivors := pyIntOrZero (sqlSumInt (rows.map (·.survived)))
  let casualties := total_count - survivors
  let rate? : Option ℚ :=
    if 0 < total_count then (pyDiv (survivors : ℚ) ((total_count : Int) : ℚ)).map (· * 100)
    else some 0
  match rate? with
  | none => none
  | some survival_rate =>
    let average_age := pyIfTruthy (sqlAvg (rows.filterMap (·.age))) id
    let average_fare := pyIfTruthy (sqlAvg (rows.filterMap (·.fare))) id
    some { total_passengers := total_count
           survival_rate := roundTo 2 survival_rate
           survivors := survivors
           casualties := casualties
           average_age := pyIfTruthy average_age (roundTo 2)
           average_fare := pyIfTruthy average_fare (roundTo 2)
           class_distribution := classDistribution rows
           gender_distribution := genderDistribution rows }

lemma get_passenger_statistics_eq (rows : List Observation) :
    get_passenger_statistics rows
      = some { total_passengers := (rows.length : Int)
               survival_rate := roundTo 2
                 (if 0 < (rows.length : Int) then
                    (pyIntOrZero (sqlSumInt (rows.map (·.survived))) : ℚ)
                      / ((rows.length : Int) : ℚ) * 100
                  else 0)
               survivors := pyIntOrZero (sqlSumInt (rows.map (·.survived)))
               casualties := (rows.length : Int)
                 - pyIntOrZero (sqlSumInt (rows.map (·.survived)))
               average_age :=
                 pyIfTruthy (pyIfTruthy (sqlAvg (rows.filterMap (·.age))) id) (roundTo 2)
               average_fare :=
                 pyIfTruthy (pyIfTruthy (sqlAvg (rows.filterMap (·.fare))) id) (roundTo 2)
               class_distribution := classDistribution rows
               gender_distribution := genderDistribution rows } := by
  unfold get_passenger_statistics
  by_cases h0 : 0 < (rows.length : Int)
  · have hne : ((rows.length : Int) : ℚ) ≠ 0 :=
      Int.cast_ne_zero.mpr (ne_of_gt h0)
    have hrne : rows ≠ [] := by
      intro h'
      subst h'
      simp at h0
    simp [h0, pyDiv, hne, hrne]
  · simp [h0]

/-- C7: on an empty dataset (`total_passengers = 0`) the statistics
endpoint succeeds — it returns a payload, no division by zero occurs (the
checked division is never reached thanks to the `total_count > 0` guard) —
and the survival rate is `0`. -/
theorem statistics_empty_dataset_ok (rows : List Observation)
    (h : rows.length = 0) :
    get_passenger_statistics rows = some ⟨0, 0, 0, 0, none, none, [], []⟩ := by
  have hnil : rows = [] := List.length_eq_zero.mp h
  subst hnil
  decide

/-- Witness for C7 at the concrete empty dataset. -/
theorem statistics_empty_dataset_ok_witness :
    get_passenger_statistics [] = some ⟨0, 0, 0, 0, none, none, [], []⟩ :=
  statistics_empty_dataset_ok [] rfl

/-- C8: every successful statistics payload satisfies
`survivors + casualties = total_passengers`, `survivors` being the sum of
the `survived` column and `casualties` being defined as the total minus
the survivors. -/
theorem survivors_plus_casualties (rows : List Observation)
    (s : StatisticsResponse) (h : get_passenger_statistics rows = some s) :
    s.survivors + s.casualties = s.total_passengers := by
  rw [get_passenger_statistics_eq] at h
  cases h
  simp only []
  omega

/-- One concrete observation row used by the witnesses below. -/
def exampleRow : Observation := ⟨1, some 22, some 7, some "Third", some "male"⟩

/-- Statistics payload of the one-row dataset `[exampleRow]`. -/
def exampleStats : StatisticsResponse :=
  ⟨1, 100, 1, 0, some 22, some 7, [("Third", 1)], [("male", 1)]⟩

/-- Witness for C8 at a concrete one-row dataset. -/
theorem survivors_plus_casualties_witness :
    exampleStats.survivors + exampleStats.casualties = exampleStats.total_passengers :=
  survivors_plus_casualties [exampleRow] exampleStats (by decide)

/-- One observation row whose age is the non-null value `0.0`. -/
def obsAgeZero : Observation := ⟨0, some 0, none, none, none⟩

/-- Counterexample to C4: the one-row dataset `[obsAgeZero]` has a non-null
age, yet the statistics payload reports `average_age = None` — the
truthiness check `if avg_age` (line 277, and again line 313 of
`src/api/routers/passengers.py`) treats the computed average `0.0` like
`NULL`. -/
theorem average_age_none_despite_nonnull_value :
    obsAgeZero.age = some 0
  ∧ get_passenger_statistics [obsAgeZero]
      = some ⟨1, 0, 0, 1, none, none, [], []⟩ :=
  ⟨rfl, by decide⟩

lemma avg_field_characterization (vals : List ℚ) :
    (pyIfTruthy (pyIfTruthy (sqlAvg vals) id) (roundTo 2) = none
      ↔ vals = [] ∨ vals.sum = 0)
  ∧ (∀ v, pyIfTruthy (pyIfTruthy (sqlAvg vals) id) (roundTo 2) = some v
      → v = roundTo 2 (vals.sum / (vals.length : ℚ))) := by
  by_cases hv : vals = []
  · subst hv
    simp [sqlAvg, pyIfTruthy]
  · have hl0 : vals.length ≠ 0 := fun h => hv (List.length_eq_zero.mp h)
    have hlen : ((vals.length : ℕ) : ℚ) ≠ 0 := Nat.cast_ne_zero.mpr hl0
    have hEmpty : vals.isEmpty = false := by
      simp [List.isEmpty_iff, hv]
    have hred : pyIfTruthy (pyIfTruthy (sqlAvg vals) id) (roundTo 2)
        = (if vals.sum / (vals.length : ℚ) = 0 then none
           else some (roundTo 2 (vals.sum / (vals.length : ℚ)))) := by
      by_cases hz : vals.sum / (vals.length : ℚ) = 0 <;>
        simp [sqlAvg, hEmpty, pyIfTruthy, hz]
    rw [hred]
    by_cases hz : vals.sum / (vals.length : ℚ) = 0
    · rw [if_pos hz]
      have hsum : vals.sum = 0 := by
        rcases div_eq_zero_iff.mp hz with h | h
        · exact h
        · exact absurd h hlen
      simp [hv, hsum]
    · rw [if_neg hz]
      have hsum : ¬ vals.sum = 0 := fun h => hz (by simp [h])
      simp [hv, hsum]

/-- C4 (amended): the averages are computed only over the non-null values
of their columns, and the reported field is `None` exactly when no
non-null value exists **or** the computed average equals zero (Python
truthiness of `0.0`); any other average is reported rounded to two
decimals. -/
theorem averages_over_nonnull_truthiness (rows : List Observation)
    (s : StatisticsResponse) (h : get_passenger_statistics rows = some s) :
    (s.average_age = none
      ↔ rows.filterMap (·.age) = [] ∨ (rows.filterMap (·.age)).sum = 0)
  ∧ (∀ v, s.average_age = some v
      → v = roundTo 2 ((rows.filterMap (·.age)).sum
            / ((rows.filterMap (·.age)).length : ℚ)))
  ∧ (s.average_fare = none
      ↔ rows.filterMap (·.fare) = [] ∨ (rows.filterMap (·.fare)).sum = 0)
  ∧ (∀ v, s.average_fare = some v
      → v = roundTo 2 ((rows.filterMap (·.fare)).sum
            / ((rows.filterMap (·.fare)).length : ℚ))) := by
  rw [get_passenger_statistics_eq] at h
  cases h
  exact ⟨(avg_field_characterization _).1, (avg_field_characterization _).2,
         (avg_field_characterization _).1, (avg_field_characterization _).2⟩

/-- Witness for C4 (amended) at a concrete one-row dataset whose average
age is 22: the reported field is not `None`. -/
theorem averages_over_nonnull_truthiness_witness :
    exampleStats.average_age = none
      ↔ ([exampleRow].filterMap (·.age) = []
          ∨ ([exampleRow].filterMap (·.age)).sum = 0) :=
  (averages_over_nonnull_truthiness [exampleRow] exampleStats (by decide)).1

/-- Bucket index of the SQL `CASE` expression in the age-group query
(`src/api/routers/passengers.py` lines 415-421): the first matching branch
among `age < 18`, `age < 30`, `age < 50`, `age < 65`, else the senior
bucket. -/
def ageBucket (age : ℚ) : Nat :=
  if age < 18 then 0
  else if age < 30 then 1
  else if age < 50 then 2
  else if age < 65 then 3
  else 4

/-- Display label of each age bucket, from the same `CASE` expression. -/
def bucketLabel : Nat → String
  | 0 => "Kinder (0-17)"
  | 1 => "Junge Erwachsene (18-29)"
  | 2 => "Erwachsene (30-49)"
  | 3 => "Ältere Erwachsene (50-64)"
  | _ => "Senioren (65+)"

/-- One output row of the age-group endpoint (lines 441-449).  `min_age`
is `MIN(age)` of the group, which the SQL query computes for its
`ORDER BY MIN(age)` clause; it is not part of the JSON payload but it is
what determines the output order. -/
structure AgeGroupRow where
  age_group : String
  total_passengers : Int
  survivors : Int
  survival_rate : ℚ
  average_age : ℚ
  min_age : ℚ
deriving DecidableEq, Repr

/-- Minimum of a list of rationals with a default for the empty list; only
applied to non-empty groups. -/
def minimumD : List ℚ → ℚ → ℚ
  | [], d => d
  | a :: t, _ => t.foldl min a

/-- Aggregates of one non-empty group `g` of (age, survived) pairs in
bucket `i`: `COUNT(*)`, `SUM(survived)`, the rounded survival rate and
average age (each passed through the Python `x if x else 0` truthiness of
lines 446-448), and `MIN(age)`. -/
def ageGroupRowOf (i : Nat) (g : List (ℚ × Int)) : AgeGroupRow :=
  { age_group := bucketLabel i
    total_passengers := (g.length : Int)
    survivors := pyIntOrZero (sqlSumInt (g.map (·.2)))
    survival_rate := pyRatOrZero
      (some (roundTo 2 (((g.map (·.2)).sum : ℚ) / (g.length : ℚ) * 100)))
    average_age := pyRatOrZero
      (some (roundTo 1 ((g.map (·.1)).sum / (g.length : ℚ))))
    min_age := minimumD (g.map (·.1)) 0 }

/-- Output row for bucket `i`: none when the bucket holds no rows (SQL
`GROUP BY` emits no row for an empty group), otherwise its aggregates. -/
def ageGroupF (nn : List (ℚ × Int)) (i : Nat) : Option AgeGroupRow :=
  if (nn.filter (fun p => ageBucket p.1 == i)).isEmpty then none
  else some (ageGroupRowOf i (nn.filter (fun p => ageBucket p.1 == i)))

/-- Embedding of the age-group endpoint `get_age_groups`
(`src/api/routers/passengers.py` lines 405-456).  Rows with `NULL` age are
excluded by `WHERE age IS NOT NULL`; the remaining (age, survived) pairs
are grouped by the five-branch `CASE` expression via `ageGroupF`.  Groups
are emitted in ascending bucket order; the partition theorem below proves
this order strictly ascending in `MIN(age)`, i.e. it is the
`ORDER BY MIN(age)` order of the query. -/
def get_age_groups (rows : List Observation) : List AgeGroupRow :=
  (List.range 5).filterMap
    (ageGroupF (rows.filterMap (fun r => r.age.map (fun a => (a, r.survived)))))

lemma ageBucket_lt_five (a : ℚ) : ageBucket a < 5 := by
  unfold ageBucket
  split_ifs <;> omega

lemma ageBucket_le_of_le {a b : ℚ} (hab : a ≤ b) : ageBucket a ≤ ageBucket b := by
  unfold ageBucket
  split_ifs <;> first | omega | (exfalso; linarith)

lemma lt_of_ageBucket_lt {a b : ℚ} (h : ageBucket a < ageBucket b) : a < b := by
  by_contra hab
  push_neg at hab
  exact absurd (ageBucket_le_of_le hab) (by omega)

lemma foldl_min_mem (t : List ℚ) : ∀ a, t.foldl min a ∈ a :: t := by
  induction t with
  | nil => intro a; simp
  | cons b t ih =>
    intro a
    have h := ih (min a b)
    rw [List.foldl_cons]
    rcases List.mem_cons.mp h with h1 | h1
    · rcases min_choice a b with hm | hm <;> rw [h1, hm] <;> simp
    · simp [h1]

lemma minimumD_mem (l : List ℚ) (d : ℚ) (h : l ≠ []) : minimumD l d ∈ l := by
  cases l with
  | nil => exact absurd rfl h
  | cons a t => exact foldl_min_mem t a

lemma pairwise_filterMap_nat {β : Type} (F : Nat → Option β) (R : β → β → Prop)
    (l : List Nat) (hl : l.Pairwise (· < ·))
    (h : ∀ i j, i < j → ∀ x, F i = some x → ∀ y, F j = some y → R x y) :
    (l.filterMap F).Pairwise R := by
  induction l with
  | nil => simp
  | cons i t ih =>
    rcases List.pairwise_cons.mp hl with ⟨hlt, hp⟩
    rw [List.filterMap_cons]
    cases hF : F i with
    | none => exact ih hp
    | some x =>
      refine List.Pairwise.cons ?_ (ih hp)
      intro y hy
      obtain ⟨j, hj, hFj⟩ := List.mem_filterMap.mp hy
      exact h i j (hlt j hj) x hF y hFj

lemma bucket_counts_sum (nn : List (ℚ × Int)) :
    ((List.range 5).map
        (fun i => (nn.filter (fun p => ageBucket p.1 == i)).length)).sum
      = nn.length := by
  induction nn with
  | nil => rfl
  | cons p t ih =>
    have hb : ageBucket p.1 < 5 := ageBucket_lt_five p.1
    rw [show List.range 5 = [0, 1, 2, 3, 4] from rfl] at ih ⊢
    simp only [List.map_cons, List.map_nil, List.sum_cons, List.sum_nil] at ih ⊢
    simp only [List.filter_cons]
    have h5 : ageBucket p.1 = 0 ∨ ageBucket p.1 = 1 ∨ ageBucket p.1 = 2
        ∨ ageBucket p.1 = 3 ∨ ageBucket p.1 = 4 := by omega
    rcases h5 with h | h | h | h | h <;> simp [h] <;> omega

lemma totals_sum (F : Nat → Option AgeGroupRow) (len : Nat → Nat) (l : List Nat)
    (h : ∀ i ∈ l, (F i = none → len i = 0)
        ∧ (∀ r, F i = some r → r.total_passengers = (len i : Int))) :
    ((l.filterMap F).map (·.total_passengers)).sum = ((l.map len).sum : Int) := by
  induction l with
  | nil => simp
  | cons i t ih =>
    rw [List.filterMap_cons]
    have hi := h i (by simp)
    have ht := fun j hj => h j (List.mem_cons_of_mem i hj)
    cases hF : F i with
    | none =>
      have h0 := hi.1 hF
      simp only [List.map_cons, List.sum_cons, h0]
      rw [ih ht]
      push_cast
      ring
    | some r =>
      have hr := hi.2 r hF
      simp only [List.map_cons, List.sum_cons, hr]
      rw [ih ht]
      push_cast
      ring

lemma nn_length (rows : List Observation) :
    (rows.filterMap (fun r => r.age.map (fun a => (a, r.survived)))).length
      = (rows.filterMap (·.age)).length := by
  induction rows with
  | nil => rfl
  | cons r t ih => cases hr : r.age <;> simp [List.filterMap_cons, hr, ih]

lemma ageGroupF_some {nn : List (ℚ × Int)} {i : Nat} {x : AgeGroupRow}
    (h : ageGroupF nn i = some x) :
    ∃ g, g = nn.filter (fun p => ageBucket p.1 == i) ∧ g ≠ []
      ∧ x = ageGroupRowOf i g := by
  unfold ageGroupF at h
  split at h
  · exact absurd h (by simp)
  · rename_i hE
    refine ⟨_, rfl, ?_, (Option.some.inj h).symm⟩
    intro hcontra
    exact hE (by simp [hcontra])

/-- C6: the age-group computation excludes every row with null age; the
`CASE` expression puts each non-null age in exactly one of the five
buckets, which for non-negative ages are the intervals [0,18), [18,30),
[30,50), [50,65), [65,∞); buckets with zero members are omitted; the
emitted groups are strictly ascending in their minimum age, which is the
`ORDER BY MIN(age)` order of the query; and the bucket totals sum to the
number of rows with non-null age. -/
theorem age_groups_partition (rows : List Observation) :
    (∀ r, r.age = none → get_age_groups (r :: rows) = get_age_groups rows)
  ∧ (∀ a : ℚ, ageBucket a < 5)
  ∧ (∀ a : ℚ, 0 ≤ a →
      (ageBucket a = 0 ∧ 0 ≤ a ∧ a < 18)
      ∨ (ageBucket a = 1 ∧ 18 ≤ a ∧ a < 30)
      ∨ (ageBucket a = 2 ∧ 30 ≤ a ∧ a < 50)
      ∨ (ageBucket a = 3 ∧ 50 ≤ a ∧ a < 65)
      ∨ (ageBucket a = 4 ∧ 65 ≤ a))
  ∧ (∀ g ∈ get_age_groups rows, 0 < g.total_passengers)
  ∧ (get_age_groups rows).Pairwise (fun g1 g2 => g1.min_age < g2.min_age)
  ∧ ((get_age_groups rows).map (·.total_passengers)).sum
      = ((rows.filterMap (·.age)).length : Int) := by
  refine ⟨?_, ageBucket_lt_five, ?_, ?_, ?_, ?_⟩
  · intro r hr
    simp [get_age_groups, List.filterMap_cons, hr]
  · intro a ha
    unfold ageBucket
    split_ifs with h1 h2 h3 h4
    · exact Or.inl ⟨rfl, ha, h1⟩
    · exact Or.inr (Or.inl ⟨rfl, le_of_not_lt h1, h2⟩)
    · exact Or.inr (Or.inr (Or.inl ⟨rfl, le_of_not_lt h2, h3⟩))
    · exact Or.inr (Or.inr (Or.inr (Or.inl ⟨rfl, le_of_not_lt h3, h4⟩)))
    · exact Or.inr (Or.inr (Or.inr (Or.inr ⟨rfl, le_of_not_lt h4⟩)))
  · intro g hg
    unfold get_age_groups at hg
    obtain ⟨i, -, hF⟩ := List.mem_filterMap.mp hg
    obtain ⟨gl, -, hne, rfl⟩ := ageGroupF_some hF
    have hlen : gl.length ≠ 0 := fun h => hne (List.length_eq_zero.mp h)
    show (0 : Int) < (gl.length : Int)
    exact_mod_cast Nat.pos_of_ne_zero hlen
  · unfold get_age_groups
    refine pairwise_filterMap_nat _ _ _ (List.pairwise_lt_range 5) ?_
    intro i j hij x hFi y hFj
    obtain ⟨gi, hgi, hnei, rfl⟩ := ageGroupF_some hFi
    obtain ⟨gj, hgj, hnej, rfl⟩ := ageGroupF_some hFj
    show minimumD (gi.map (·.1)) 0 < minimumD (gj.map (·.1)) 0
    have hmi := minimumD_mem (gi.map (·.1)) 0 (by simp [hnei])
    have hmj := minimumD_mem (gj.map (·.1)) 0 (by simp [hnej])
    obtain ⟨p, hp, hpe⟩ := List.mem_map.mp hmi
    obtain ⟨q, hq, hqe⟩ := List.mem_map.mp hmj
    rw [← hpe, ← hqe]
    apply lt_of_ageBucket_lt
    rw [hgi] at hp
    rw [hgj] at hq
    have hpi : ageBucket p.1 = i := by simpa using List.of_mem_filter hp
    have hqj : ageBucket q.1 = j := by simpa using List.of_mem_filter hq
    rw [hpi, hqj]
    exact hij
  · unfold get_age_groups
    have hcond : ∀ i ∈ List.range 5,
        (ageGroupF (rows.filterMap (fun r => r.age.map (fun a => (a, r.survived)))) i
            = none
          → ((rows.filterMap (fun r => r.age.map (fun a => (a, r.survived)))).filter
              (fun p => ageBucket p.1 == i)).length = 0)
        ∧ (∀ r, ageGroupF (rows.filterMap (fun r => r.age.map (fun a => (a, r.survived)))) i
            = some r
          → r.total_passengers
            = (((rows.filterMap (fun r => r.age.map (fun a => (a, r.survived)))).filter
                (fun p => ageBucket p.1 == i)).length : Int)) := by
      intro i _hi
      constructor
      · intro hnone
        unfold ageGroupF at hnone
        split at hnone
        · rename_i hE
          rw [List.isEmpty_iff] at hE
          simp [hE]
        · exact absurd hnone (by simp)
      · intro r hr
        obtain ⟨g, hg, -, rfl⟩ := ageGroupF_some hr
        show (g.length : Int) = _
        rw [hg]
    rw [totals_sum
      (ageGroupF (rows.filterMap (fun r => r.age.map (fun a => (a, r.survived)))))
      (fun i => ((rows.filterMap (fun r => r.age.map (fun a => (a, r.survived)))).filter
          (fun p => ageBucket p.1 == i)).length)
      (List.range 5) hcond]
    have h1 := bucket_counts_sum (rows.filterMap (fun r => r.age.map (fun a => (a, r.survived))))
    have h2 := nn_length rows
    exact_mod_cast h1.trans h2

/-- One observation row with null age, excluded from the age-group
analysis. -/
def nullAgeRow : Observation := ⟨0, none, none, none, none⟩

/-- Witness for C6 at a concrete input: prepending a null-age row leaves
the age groups unchanged. -/
theorem age_groups_partition_witness :
    get_age_groups (nullAgeRow :: [exampleRow]) = get_age_groups [exampleRow] :=
  (age_groups_partition [exampleRow]).1 nullAgeRow rfl
